import Mathlib

/-! The live error resolver of kpt (`internal/errors/resolver/live.go`)

A shallow embedding of `liveErrorResolver.Resolve` and of what it is built on:

* Go `error` values with their wrap chain, and `errors.As` over that chain;
* the six message templates of `live.go`, kept as the template text of the
  source, and a model of the part of Go `text/template` and `fmt` that this
  text uses (lexing with trim markers, field chains, `printf`, `len`, `gt`,
  `if`, `range`);
* `ExecuteTemplate`, `ResolvedResult` and the resolver registry, which live in
  `resolver.go` and are modelled from the specification.

A Go panic is an `Except.error`, so every function that can raise returns
`Except Panic _`.
-/

namespace resolver

/-! ## Error values -/

/-- Modelled from the spec: `schema.GroupKind` of an object identifier (declared outside this
repository); the timeout template selects `.Identifier.GroupKind.Kind`. -/
structure GroupKind where
  Group : String
  Kind : String
deriving DecidableEq

/-- Modelled from the spec: `object.ObjMetadata`, the identifier of a resource (declared outside
this repository); the timeout template selects `.Identifier.Name`. -/
structure ObjMetadata where
  Namespace : String
  Name : String
  GroupKind : GroupKind
deriving DecidableEq

/-- Modelled from the spec: `taskrunner.TimedOutResource` (declared outside this repository); the
timeout template selects `.Identifier`, `.Status` and `.Message`. `Status` is a string type. -/
structure TimedOutResource where
  Identifier : ObjMetadata
  Status : String
  Message : String
deriving DecidableEq

/-- Modelled from the spec: the payload of `taskrunner.TimeoutError` (declared outside this
repository); the timeout template selects `.Timeout`, `.TimedOutResources`, `.Identifiers` and
`.Condition`. `Timeout` is a `time.Duration`: a signed 64-bit count of nanoseconds. `Condition`
is a string type. -/
structure TimeoutError where
  Identifiers : List ObjMetadata
  Timeout : Int
  Condition : String
  TimedOutResources : List TimedOutResource
deriving DecidableEq

/-- Modelled from the spec: a Go `error` interface value, an opaque tagged payload that may wrap a
cause. It is `nil`, a pointer to one of the six types `Resolve` recognizes, or a value of any
other type (`other`, which has no `As` method of its own and none of the fields that the
templates select). Every value carries in `msg` what its `Error()` method returns. Only `ResourceGroupCRDInstallError` (through its `Err` field) and
`other` errors (through `Unwrap`) wrap another error; the wrapped error may be `nil`. -/
inductive error where
  | nil
  | NoInventoryObjError (msg : String)
  | MultipleInventoryObjError (msg : String)
  | TimeoutError (payload : TimeoutError) (msg : String)
  | ResourceGroupCRDInstallError (msg : String) (Err : error)
  | NoResourceGroupCRDError (msg : String)
  | InvExistsError (msg : String)
  | other (typ : String) (msg : String) (Unwrap : error)
deriving DecidableEq

/-- The six error types that `Resolve` passes to `errors.As` as targets, which are the six
families of causes it recognizes. -/
inductive Family where
  | NoInventoryObjError
  | MultipleInventoryObjError
  | TimeoutError
  | ResourceGroupCRDInstallError
  | NoResourceGroupCRDError
  | InvExistsError
deriving DecidableEq

/-- What stops a call: a Go panic. -/
inductive Panic where
  /-- A method called on a nil interface value. -/
  | nilDereference
  /-- The template could not be parsed or executed. -/
  | templateFailure (reason : String)
deriving DecidableEq

/-- The family of an error value, by its dynamic type alone; `none` for `nil` and for the
types `Resolve` does not recognize. -/
def error.family : error → Option Family
  | .nil => none
  | .NoInventoryObjError _ => some .NoInventoryObjError
  | .MultipleInventoryObjError _ => some .MultipleInventoryObjError
  | .TimeoutError _ _ => some .TimeoutError
  | .ResourceGroupCRDInstallError _ _ => some .ResourceGroupCRDInstallError
  | .NoResourceGroupCRDError _ => some .NoResourceGroupCRDError
  | .InvExistsError _ => some .InvExistsError
  | .other _ _ _ => none

/-- The `Error()` method. On the nil interface value the call panics. -/
def error.Error : error → Except Panic String
  | .nil => .error .nilDereference
  | .NoInventoryObjError msg => .ok msg
  | .MultipleInventoryObjError msg => .ok msg
  | .TimeoutError _ msg => .ok msg
  | .ResourceGroupCRDInstallError msg _ => .ok msg
  | .NoResourceGroupCRDError msg => .ok msg
  | .InvExistsError msg => .ok msg
  | .other _ msg _ => .ok msg

/-- The field `Err` of a `*ResourceGroupCRDInstallError` (nil for every other value, on which the
source never selects it). -/
def error.Err : error → error
  | .ResourceGroupCRDInstallError _ inner => inner
  | _ => .nil

namespace errors

/-- Modelled from the spec: `errors.Unwrap` (`internal/errors` is not among the sources): the
error that a value wraps, nil when it wraps none. -/
def Unwrap : error → error
  | .ResourceGroupCRDInstallError _ inner => inner
  | .other _ _ inner => inner
  | _ => .nil

/-- Modelled from the spec: `errors.As` (`internal/errors` is not among the sources): walks the
wrap chain from the error itself and extracts the first value whose type is the target type, by
type identity and never by message text. `some e` stands for `true` with the target set to `e`,
`none` for `false`. -/
def As : error → Family → Option error
  | .nil, _ => none
  | .NoInventoryObjError msg, target =>
    if target = .NoInventoryObjError then some (.NoInventoryObjError msg) else none
  | .MultipleInventoryObjError msg, target =>
    if target = .MultipleInventoryObjError then some (.MultipleInventoryObjError msg) else none
  | .TimeoutError payload msg, target =>
    if target = .TimeoutError then some (.TimeoutError payload msg) else none
  | .ResourceGroupCRDInstallError msg inner, target =>
    if target = .ResourceGroupCRDInstallError then some (.ResourceGroupCRDInstallError msg inner)
    else As inner target
  | .NoResourceGroupCRDError msg, target =>
    if target = .NoResourceGroupCRDError then some (.NoResourceGroupCRDError msg) else none
  | .InvExistsError msg, target =>
    if target = .InvExistsError then some (.InvExistsError msg) else none
  | .other _ _ inner, target => As inner target

end errors

/-- The wrap chain of an error: the error itself, what it wraps, and so on; empty for nil. -/
def error.chain : error → List error
  | .nil => []
  | .NoInventoryObjError msg => [.NoInventoryObjError msg]
  | .MultipleInventoryObjError msg => [.MultipleInventoryObjError msg]
  | .TimeoutError payload msg => [.TimeoutError payload msg]
  | .ResourceGroupCRDInstallError msg inner => .ResourceGroupCRDInstallError msg inner :: inner.chain
  | .NoResourceGroupCRDError msg => [.NoResourceGroupCRDError msg]
  | .InvExistsError msg => [.InvExistsError msg]
  | .other typ msg inner => .other typ msg inner :: inner.chain

/-- The wrap chain of the error contains a cause of the given family, at any depth. -/
def error.wraps (err : error) (f : Family) : Bool :=
  err.chain.any fun e => decide (e.family = some f)


/-! ## The template engine

The part of Go `text/template` and of `fmt` that the six templates of `live.go` use. -/

namespace template

/-- Round to the nearest integer, ties to the even one. -/
def roundHalfEven (q : ℚ) : ℤ :=
  if q - ⌊q⌋ < 1 / 2 then ⌊q⌋
  else if 1 / 2 < q - ⌊q⌋ then ⌊q⌋ + 1
  else if ⌊q⌋ % 2 = 0 then ⌊q⌋ else ⌊q⌋ + 1

/-- The float64 nearest to a rational (ties to even), as the rational it denotes: 53 significant
bits. Magnitudes here lie between 1e-9 and 1e10, far from the subnormal and overflow ranges,
which are left out. -/
def float64 (q : ℚ) : ℚ :=
  if q = 0 then 0
  else roundHalfEven (q / (2 : ℚ) ^ (Int.log 2 |q| - 52)) * (2 : ℚ) ^ (Int.log 2 |q| - 52)

/-- The method `time.Duration.Seconds`:
`sec := d / Second; nsec := d % Second; return float64(sec) + float64(nsec)/1e9`,
with the truncating division of Go and every float64 operation rounded. -/
def Seconds (d : Int) : ℚ :=
  float64 (float64 (d.tdiv 1000000000) + float64 (float64 (d.tmod 1000000000) / 1000000000))

/-- Decimal text of an integer, as the verb `%d` prints it. -/
def fmtInt (n : Int) : String :=
  if n < 0 then "-" ++ toString n.natAbs else toString n.natAbs

/-- The verb `%.0f`: the float64 rounded to an integer, ties to even, with its sign. -/
def fmtFloat0 (q : ℚ) : String :=
  if q < 0 then "-" ++ toString (roundHalfEven |q|).natAbs
  else toString (roundHalfEven |q|).natAbs

/-- The values that template evaluation meets: what the argument bag holds and what the
selectors and functions of the six templates produce from it. -/
inductive Value where
  | str (s : String)
  | int (n : Int)
  | bool (b : Bool)
  | float (q : ℚ)
  | duration (ns : Int)
  | iface (e : error)
  | resources (rs : List TimedOutResource)
  | identifiers (ids : List ObjMetadata)
  | resource (r : TimedOutResource)
  | identifier (id : ObjMetadata)
  | groupKind (gk : GroupKind)
deriving DecidableEq

/-- The template-argument bag, a `map[string]interface{}`. -/
abbrev Bag := List (String × Value)

/-- Selecting `.name` on a value: a field of a struct (through a pointer) or a method without
arguments. A type that has neither, or a nil value, fails the execution. -/
def Value.field : Value → String → Except String Value
  | .iface (.TimeoutError p msg), name =>
    if name = "Identifiers" then .ok (.identifiers p.Identifiers)
    else if name = "Timeout" then .ok (.duration p.Timeout)
    else if name = "Condition" then .ok (.str p.Condition)
    else if name = "TimedOutResources" then .ok (.resources p.TimedOutResources)
    else if name = "Error" then .ok (.str msg)
    else .error ("can not evaluate field " ++ name ++ " in type *taskrunner.TimeoutError")
  | .iface (.ResourceGroupCRDInstallError msg inner), name =>
    if name = "Err" then .ok (.iface inner)
    else if name = "Unwrap" then .ok (.iface inner)
    else if name = "Error" then .ok (.str msg)
    else .error ("can not evaluate field " ++ name ++ " in type *cmdutil.ResourceGroupCRDInstallError")
  | .iface .nil, name => .error ("nil pointer evaluating interface.\x7b\x7d" ++ name)
  | .iface e, name =>
    if name = "Error" then
      match e.Error with
      | .ok msg => .ok (.str msg)
      | .error _ => .error "nil pointer"
    else .error ("can not evaluate field " ++ name)
  | .duration ns, name =>
    if name = "Seconds" then .ok (.float (Seconds ns))
    else .error ("can not evaluate field " ++ name ++ " in type time.Duration")
  | .resource r, name =>
    if name = "Identifier" then .ok (.identifier r.Identifier)
    else if name = "Status" then .ok (.str r.Status)
    else if name = "Message" then .ok (.str r.Message)
    else .error ("can not evaluate field " ++ name ++ " in type taskrunner.TimedOutResource")
  | .identifier id, name =>
    if name = "Namespace" then .ok (.str id.Namespace)
    else if name = "Name" then .ok (.str id.Name)
    else if name = "GroupKind" then .ok (.groupKind id.GroupKind)
    else .error ("can not evaluate field " ++ name ++ " in type object.ObjMetadata")
  | .groupKind gk, name =>
    if name = "Group" then .ok (.str gk.Group)
    else if name = "Kind" then .ok (.str gk.Kind)
    else .error ("can not evaluate field " ++ name ++ " in type schema.GroupKind")
  | _, name => .error ("can not evaluate field " ++ name)

/-- What `.` stands for: the argument bag at the top level, an element inside `range`. -/
inductive Dot where
  | root (args : Bag)
  | elem (v : Value)

/-- Selecting `.name` on the dot; on the bag it is the lookup of a key. -/
def Dot.field : Dot → String → Except String Value
  | .root args, name =>
    match args.lookup name with
    | some v => .ok v
    | none => .error ("map has no entry for key " ++ name)
  | .elem v, name => v.field name

/-- Selecting the rest of a field chain, one selector after the other. -/
def selectAll : Value → List String → Except String Value
  | v, [] => .ok v
  | v, name :: names =>
    match v.field name with
    | .ok w => selectAll w names
    | .error e => .error e

/-- The field chain `.a.b.c` evaluated on the dot. -/
def evalChain (dot : Dot) : List String → Except String Value
  | [] => .error "a bare dot is not supported"
  | name :: names =>
    match dot.field name with
    | .ok v => selectAll v names
    | .error e => .error e

/-- The function `fmt.Sprintf` for the verbs `%s`, `%d` and `%.0f` on operands of the matching
kind, the only combinations that the templates produce; any other one is rejected. -/
def Sprintf : List Char → List Value → Except String (List Char)
  | [], [] => .ok []
  | [], _ :: _ => .error "printf: extra operand"
  | '%' :: 's' :: rest, .str s :: vs => (Sprintf rest vs).map fun out => s.toList ++ out
  | '%' :: 'd' :: rest, .int n :: vs => (Sprintf rest vs).map fun out => (fmtInt n).toList ++ out
  | '%' :: '.' :: '0' :: 'f' :: rest, .float q :: vs =>
    (Sprintf rest vs).map fun out => (fmtFloat0 q).toList ++ out
  | '%' :: _, _ => .error "printf: verb and operand not supported"
  | c :: rest, vs => (Sprintf rest vs).map fun out => c :: out

/-- The predefined functions `printf`, `len` and `gt`. -/
def callFunction (fn : String) (args : List Value) : Except String Value :=
  if fn = "printf" then
    match args with
    | .str format :: vs => (Sprintf format.toList vs).map fun out => .str (String.mk out)
    | _ => .error "printf: no format"
  else if fn = "len" then
    match args with
    | [.str s] => .ok (.int s.utf8ByteSize)
    | [.resources rs] => .ok (.int rs.length)
    | [.identifiers ids] => .ok (.int ids.length)
    | _ => .error "len: operand not supported"
  else if fn = "gt" then
    match args with
    | [.int a, .int b] => .ok (.bool (decide (b < a)))
    | _ => .error "gt: operands not supported"
  else .error ("function " ++ fn ++ " not defined")

/-- The truth of a value, for `if`: the zero value of its type is false. -/
def Value.truth : Value → Bool
  | .str s => s != ""
  | .int n => n != 0
  | .bool b => b
  | .float q => q != 0
  | .duration ns => ns != 0
  | .iface e => e != .nil
  | .resources rs => !rs.isEmpty
  | .identifiers ids => !ids.isEmpty
  | _ => true

/-- What an action prints for a value; the six templates print strings only. -/
def Value.print : Value → Except String String
  | .str s => .ok s
  | .int n => .ok (fmtInt n)
  | .bool b => .ok (if b then "true" else "false")
  | _ => .error "printing this value is not supported"

/-- The elements that `range` runs over. -/
def Value.elems : Value → Except String (List Value)
  | .resources rs => .ok (rs.map .resource)
  | .identifiers ids => .ok (ids.map .identifier)
  | _ => .error "range can not iterate over this value"

/-! ### Lexing -/

inductive Token where
  | ident (name : String)
  | field (chain : List String)
  | str (s : String)
  | num (n : Nat)
  | lparen
  | rparen
deriving DecidableEq

def isSpace (c : Char) : Bool := c == ' ' || c == '\t' || c == '\r' || c == '\n'

def isAlnum (c : Char) : Bool := c.isAlphanum || c == '_'

/-- The body of a quoted string up to its closing quote, escapes decoded. -/
def lexString : List Char → List Char → Option (List Char × List Char)
  | _, [] => none
  | acc, '"' :: rest => some (acc.reverse, rest)
  | acc, '\\' :: 'n' :: rest => lexString ('\n' :: acc) rest
  | acc, '\\' :: 't' :: rest => lexString ('\t' :: acc) rest
  | acc, '\\' :: '"' :: rest => lexString ('"' :: acc) rest
  | acc, '\\' :: '\\' :: rest => lexString ('\\' :: acc) rest
  | _, '\\' :: _ => none
  | acc, c :: rest => lexString (c :: acc) rest

/-- The selectors of a field chain `.a.b.c`, the input starting after the first dot. -/
def lexChain : Nat → List Char → List String × List Char
  | 0, cs => ([], cs)
  | fuel + 1, cs =>
    match cs.dropWhile isAlnum with
    | '.' :: rest => (String.mk (cs.takeWhile isAlnum) :: (lexChain fuel rest).1, (lexChain fuel rest).2)
    | rest => ([String.mk (cs.takeWhile isAlnum)], rest)

/-- The tokens of one action up to its closing delimiter; the flag tells whether the delimiter
carries the trim marker ` -}}`. -/
def lexAction : Nat → List Char → Option (List Token × Bool × List Char)
  | 0, _ => none
  | _ + 1, [] => none
  | _ + 1, '}' :: '}' :: rest => some ([], false, rest)
  | fuel + 1, c :: cs =>
    if isSpace c then
      match cs with
      | '-' :: '}' :: '}' :: rest => some ([], true, rest)
      | _ => lexAction fuel cs
    else if c == '(' then (lexAction fuel cs).map fun r => (Token.lparen :: r.1, r.2)
    else if c == ')' then (lexAction fuel cs).map fun r => (Token.rparen :: r.1, r.2)
    else if c == '"' then
      match lexString [] cs with
      | none => none
      | some (s, rest) => (lexAction fuel rest).map fun r => (Token.str (String.mk s) :: r.1, r.2)
    else if c == '.' then
      (lexAction fuel (lexChain (cs.length + 1) cs).2).map fun r =>
        (Token.field (lexChain (cs.length + 1) cs).1 :: r.1, r.2)
    else if c.isDigit then
      (lexAction fuel ((c :: cs).dropWhile Char.isDigit)).map fun r =>
        (Token.num (((c :: cs).takeWhile Char.isDigit).foldl
          (fun n d => 10 * n + (d.toNat - '0'.toNat)) 0) :: r.1, r.2)
    else if isAlnum c then
      (lexAction fuel ((c :: cs).dropWhile isAlnum)).map fun r =>
        (Token.ident (String.mk ((c :: cs).takeWhile isAlnum)) :: r.1, r.2)
    else none

/-- A piece of template text: literal text or the tokens of an action. -/
inductive Item where
  | text (s : String)
  | action (toks : List Token)
deriving DecidableEq

/-- The literal text collected so far (in reverse), with the leading white space dropped after
` -}}` and the trailing one dropped before `{{- `; no item when nothing is left. -/
def textItem (acc : List Char) (trimLeft trimRight : Bool) : List Item :=
  let t := if trimLeft then acc.reverse.dropWhile isSpace else acc.reverse
  let t := if trimRight then (t.reverse.dropWhile isSpace).reverse else t
  if t.isEmpty then [] else [Item.text (String.mk t)]

/-- Splits template text into literal text and actions and applies the trim markers. -/
def lexItems : Nat → List Char → List Char → Bool → Option (List Item)
  | 0, _, _, _ => none
  | _ + 1, acc, [], trimLeft => some (textItem acc trimLeft false)
  | fuel + 1, acc, '{' :: '{' :: '-' :: c :: cs, trimLeft =>
    if isSpace c then
      match lexAction (cs.length + 1) cs with
      | none => none
      | some (toks, trimRight, rest) =>
        (lexItems fuel [] rest trimRight).map fun items =>
          textItem acc trimLeft true ++ Item.action toks :: items
    else
      match lexAction (cs.length + 3) ('-' :: c :: cs) with
      | none => none
      | some (toks, trimRight, rest) =>
        (lexItems fuel [] rest trimRight).map fun items =>
          textItem acc trimLeft false ++ Item.action toks :: items
  | fuel + 1, acc, '{' :: '{' :: cs, trimLeft =>
    match lexAction (cs.length + 1) cs with
    | none => none
    | some (toks, trimRight, rest) =>
      (lexItems fuel [] rest trimRight).map fun items =>
        textItem acc trimLeft false ++ Item.action toks :: items
  | fuel + 1, acc, c :: cs, trimLeft => lexItems fuel (c :: acc) cs trimLeft

/-! ### Parsing -/

/-- An operand or a command of an action. -/
inductive Expr where
  | field (chain : List String)
  | str (s : String)
  | num (n : Nat)
  | call (fn : String) (args : List Expr)

/-- A command: a function name followed by its operands, or one operand alone. With `operands`
set it reads the operands that follow up to a closing parenthesis or the end and returns them
as the arguments of a call to the function `fn`. -/
def parseCommand : Nat → List Token → Option (Expr × List Token)
  | 0, _ => none
  | _ + 1, [] => none
  | fuel + 1, .ident fn :: rest => (parseArgs fuel rest).map fun r => (.call fn r.1, r.2)
  | _ + 1, .field chain :: rest => some (.field chain, rest)
  | _ + 1, .str s :: rest => some (.str s, rest)
  | _ + 1, .num n :: rest => some (.num n, rest)
  | fuel + 1, .lparen :: rest =>
    match parseCommand fuel rest with
    | some (e, .rparen :: rest1) => some (e, rest1)
    | _ => none
  | _ + 1, .rparen :: _ => none
where
  /-- The operands of a call, up to a closing parenthesis (left in place) or the end. -/
  parseArgs : Nat → List Token → Option (List Expr × List Token)
  | 0, _ => none
  | _ + 1, [] => some ([], [])
  | _ + 1, .rparen :: rest => some ([], .rparen :: rest)
  | fuel + 1, .ident fn :: rest => (parseArgs fuel rest).map fun r => (.call fn [] :: r.1, r.2)
  | fuel + 1, .field chain :: rest => (parseArgs fuel rest).map fun r => (.field chain :: r.1, r.2)
  | fuel + 1, .str s :: rest => (parseArgs fuel rest).map fun r => (.str s :: r.1, r.2)
  | fuel + 1, .num n :: rest => (parseArgs fuel rest).map fun r => (.num n :: r.1, r.2)
  | fuel + 1, .lparen :: rest =>
    match parseCommand fuel rest with
    | some (e, .rparen :: rest1) => (parseArgs fuel rest1).map fun r => (e :: r.1, r.2)
    | _ => none

/-- The whole of an action as one command. -/
def parseAction (toks : List Token) : Option Expr :=
  match parseCommand (toks.length + 1) toks with
  | some (e, []) => some e
  | _ => none

/-- A node of a parsed template. -/
inductive Node where
  | text (s : String)
  | action (e : Expr)
  | range (e : Expr) (body : List Node)
  | cond (e : Expr) (body : List Node)

/-- An open `range` or `if` with the nodes that came before it (in reverse). -/
inductive Frame where
  | range (e : Expr) (before : List Node)
  | cond (e : Expr) (before : List Node)

/-- Builds the node tree: `acc` holds the nodes of the innermost open block in reverse. -/
def build : List Item → List Node → List Frame → Option (List Node)
  | [], acc, [] => some acc.reverse
  | [], _, _ :: _ => none
  | .text s :: items, acc, stack => build items (.text s :: acc) stack
  | .action (.ident kw :: toks) :: items, acc, stack =>
    if kw = "range" then
      match parseAction toks with
      | some e => build items [] (.range e acc :: stack)
      | none => none
    else if kw = "if" then
      match parseAction toks with
      | some e => build items [] (.cond e acc :: stack)
      | none => none
    else if kw = "end" then
      match toks, stack with
      | [], .range e before :: stack1 => build items (.range e acc.reverse :: before) stack1
      | [], .cond e before :: stack1 => build items (.cond e acc.reverse :: before) stack1
      | _, _ => none
    else
      match parseAction (.ident kw :: toks) with
      | some e => build items (.action e :: acc) stack
      | none => none
  | .action toks :: items, acc, stack =>
    match parseAction toks with
    | some e => build items (.action e :: acc) stack
    | none => none

/-- The function `Parse`: template text to node tree, `none` when the text is not a template of
the supported form. -/
def Parse (text : String) : Option (List Node) :=
  match lexItems (text.length + 1) [] text.toList false with
  | some items => build items [] []
  | none => none

/-! ### Execution -/

/-- Evaluates an operand or a command on the dot. -/
def eval (dot : Dot) : Expr → Except String Value
  | .field chain => evalChain dot chain
  | .str s => .ok (.str s)
  | .num n => .ok (.int n)
  | .call fn args =>
    match evalArgs dot args with
    | .ok vs => callFunction fn vs
    | .error e => .error e
where
  /-- The operands of a call, left to right. -/
  evalArgs (dot : Dot) : List Expr → Except String (List Value)
  | [] => .ok []
  | e :: es =>
    match eval dot e with
    | .ok v => (evalArgs dot es).map fun vs => v :: vs
    | .error err => .error err

/-- Runs `body` once for each element and joins the outputs. -/
def forEach (body : Value → Except String String) : List Value → Except String String
  | [] => .ok ""
  | v :: vs =>
    match body v with
    | .ok out => (forEach body vs).map fun outs => out ++ outs
    | .error e => .error e

/-- Executes a node list on the dot and returns the output text. -/
def exec (dot : Dot) : List Node → Except String String
  | [] => .ok ""
  | n :: ns =>
    match execNode dot n with
    | .ok out => (exec dot ns).map fun outs => out ++ outs
    | .error e => .error e
where
  /-- Executes one node. -/
  execNode (dot : Dot) : Node → Except String String
  | .text s => .ok s
  | .action e =>
    match eval dot e with
    | .ok v => v.print
    | .error err => .error err
  | .range e body =>
    match eval dot e with
    | .ok v =>
      match v.elems with
      | .ok vs => forEach (fun x => exec (.elem x) body) vs
      | .error err => .error err
    | .error err => .error err
  | .cond e body =>
    match eval dot e with
    | .ok v => if v.truth then exec dot body else .ok ""
    | .error err => .error err

end template


open template (Bag Value)

/-! ## `resolver.go`: results, renderer, registry -/

/-- Modelled from the spec: `ResolvedResult` of `resolver.go` (not among the sources): a message
and an exit code. The exit code is an `int` field; left unset it is 0, the zero value, which
stands for the default exit code. -/
structure ResolvedResult where
  Message : String := ""
  ExitCode : Int := 0
deriving DecidableEq

/-- Modelled from the spec: `ExecuteTemplate` of `resolver.go` (not among the sources): the
template renderer, a pure function from template text and argument bag to the message. It
parses the text and executes it on the bag; a template that can not be rendered on the bag is
a programming mistake that is not handled: the call panics. -/
def ExecuteTemplate (text : String) (args : Bag) : Except Panic String :=
  match template.Parse text with
  | none => .error (.templateFailure "error creating template")
  | some nodes =>
    match template.exec (.root args) nodes with
    | .ok out => .ok out
    | .error reason => .error (.templateFailure reason)

/-! ## `live.go` -/

def noInventoryObjErrorMsg : String :=
  "\nError: Package uninitialized. Please run \"kpt live init\" command.\n\nThe package needs to be initialized to generate the template\nwhich will store state for resource sets. This state is\nnecessary to perform functionality such as deleting an entire\npackage or automatically deleting omitted resources (pruning).\n"

def multipleInventoryObjErrorMsg : String :=
  "\nError: Package has multiple inventory object templates.\n\nThe package should have one and only one inventory object template.\n"

def timeoutErrorMsg : String :=
  "\nError: Timeout after \x7b\x7bprintf \"%.0f\" .err.Timeout.Seconds\x7d\x7d seconds waiting for \x7b\x7bprintf \"%d\" (len .err.TimedOutResources)\x7d\x7d out of \x7b\x7bprintf \"%d\" (len .err.Identifiers)\x7d\x7d resources to reach condition \x7b\x7b .err.Condition\x7d\x7d:\x7b\x7b printf \"\\n\" \x7d\x7d\n\n\x7b\x7b- range .err.TimedOutResources\x7d\x7d\n\x7b\x7bprintf \"%s/%s %s %s\" .Identifier.GroupKind.Kind .Identifier.Name .Status .Message \x7d\x7d\n\x7b\x7b- end\x7d\x7d\n"

def resourceGroupCRDInstallErrorMsg : String :=
  "\nError: Unable to install the ResourceGroup CRD.\n\n\x7b\x7b- if gt (len .cause) 0 \x7d\x7d\n\x7b\x7b printf \"\\nDetails:\" \x7d\x7d\n\x7b\x7b printf \"%s\" .cause \x7d\x7d\n\x7b\x7b- end \x7d\x7d\n"

def noResourceGroupCRDMsg : String :=
  "\nError: The ResourceGroup CRD was not found in the cluster. Please install it either by using the \x27--install-resource-group\x27 flag or the \x27kpt live install-resource-group\x27 command.\n"

def invInfoAlreadyExistsMsg : String :=
  "\nError: Inventory information has already been added to the package Kptfile. Changing it after a package has been applied to the cluster can lead to undesired results. Use the --force flag to suppress this error.\n"


def TimeoutErrorExitCode : Int := 3

/-- The type `liveErrorResolver struct{}`: it has no field. -/
structure liveErrorResolver where
deriving DecidableEq

/-- The method `liveErrorResolver.Resolve` with the renderer `ExecuteTemplate` taken as the
argument `render`. -/
def liveErrorResolver.ResolveWith (_ : liveErrorResolver)
    (render : String → Bag → Except Panic String) (err : error) :
    Except Panic (ResolvedResult × Bool) :=
  let tmplArgs : Bag := [("err", .iface err)]
  match errors.As err .NoInventoryObjError with
  | some _ =>
    match render noInventoryObjErrorMsg tmplArgs with
    | .ok message => .ok ({ Message := message }, true)
    | .error p => .error p
  | none =>
  match errors.As err .MultipleInventoryObjError with
  | some _ =>
    match render multipleInventoryObjErrorMsg tmplArgs with
    | .ok message => .ok ({ Message := message }, true)
    | .error p => .error p
  | none =>
  match errors.As err .TimeoutError with
  | some _ =>
    match render timeoutErrorMsg tmplArgs with
    | .ok message => .ok ({ Message := message, ExitCode := TimeoutErrorExitCode }, true)
    | .error p => .error p
  | none =>
  match errors.As err .ResourceGroupCRDInstallError with
  | some resourceGroupCRDInstallError =>
    match resourceGroupCRDInstallError.Err.Error with
    | .ok cause =>
      match render resourceGroupCRDInstallErrorMsg [("cause", .str cause)] with
      | .ok message => .ok ({ Message := message }, true)
      | .error p => .error p
    | .error p => .error p
  | none =>
  match errors.As err .NoResourceGroupCRDError with
  | some _ =>
    match render noResourceGroupCRDMsg tmplArgs with
    | .ok message => .ok ({ Message := message }, true)
    | .error p => .error p
  | none =>
  match errors.As err .InvExistsError with
  | some _ =>
    match render invInfoAlreadyExistsMsg tmplArgs with
    | .ok message => .ok ({ Message := message }, true)
    | .error p => .error p
  | none => .ok ({}, false)

/-- The method `liveErrorResolver.Resolve`. -/
def liveErrorResolver.Resolve (r : liveErrorResolver) (err : error) :
    Except Panic (ResolvedResult × Bool) :=
  r.ResolveWith ExecuteTemplate err

/-- A renderer that may keep state of its own between calls: from its state, the template text
and the argument bag it gives the rendered message, or a panic, and its next state. -/
abbrev StatefulRenderer (σ : Type) := σ → String → Bag → Except Panic String × σ

/-- The method `liveErrorResolver.Resolve` with the state that a call can reach passed
explicitly. The resolver has no field and the body assigns no package variable, so the renderer
is the only callee through which a call could read or leave something behind: `state` is the
state of the renderer before the call, the second component of the value its state after the
call. The matched branch calls the renderer once; the branch that finds a nil `Err` and the
unmatched path do not call it. -/
def liveErrorResolver.ResolveIn {σ : Type} (_ : liveErrorResolver)
    (render : StatefulRenderer σ) (state : σ) (err : error) :
    Except Panic (ResolvedResult × Bool) × σ :=
  let tmplArgs : Bag := [("err", .iface err)]
  match errors.As err .NoInventoryObjError with
  | some _ =>
    (match (render state noInventoryObjErrorMsg tmplArgs).1 with
      | .ok message => .ok ({ Message := message }, true)
      | .error p => .error p,
     (render state noInventoryObjErrorMsg tmplArgs).2)
  | none =>
  match errors.As err .MultipleInventoryObjError with
  | some _ =>
    (match (render state multipleInventoryObjErrorMsg tmplArgs).1 with
      | .ok message => .ok ({ Message := message }, true)
      | .error p => .error p,
     (render state multipleInventoryObjErrorMsg tmplArgs).2)
  | none =>
  match errors.As err .TimeoutError with
  | some _ =>
    (match (render state timeoutErrorMsg tmplArgs).1 with
      | .ok message => .ok ({ Message := message, ExitCode := TimeoutErrorExitCode }, true)
      | .error p => .error p,
     (render state timeoutErrorMsg tmplArgs).2)
  | none =>
  match errors.As err .ResourceGroupCRDInstallError with
  | some resourceGroupCRDInstallError =>
    match resourceGroupCRDInstallError.Err.Error with
    | .ok cause =>
      (match (render state resourceGroupCRDInstallErrorMsg [("cause", .str cause)]).1 with
        | .ok message => .ok ({ Message := message }, true)
        | .error p => .error p,
       (render state resourceGroupCRDInstallErrorMsg [("cause", .str cause)]).2)
    | .error p => (.error p, state)
  | none =>
  match errors.As err .NoResourceGroupCRDError with
  | some _ =>
    (match (render state noResourceGroupCRDMsg tmplArgs).1 with
      | .ok message => .ok ({ Message := message }, true)
      | .error p => .error p,
     (render state noResourceGroupCRDMsg tmplArgs).2)
  | none =>
  match errors.As err .InvExistsError with
  | some _ =>
    (match (render state invInfoAlreadyExistsMsg tmplArgs).1 with
      | .ok message => .ok ({ Message := message }, true)
      | .error p => .error p,
     (render state invInfoAlreadyExistsMsg tmplArgs).2)
  | none => (.ok ({}, false), state)

/-- The renderer `ExecuteTemplate` together with a count of the calls made to it: a renderer
whose state changes at every call and whose output does not depend on it. -/
def countingRenderer : StatefulRenderer Nat :=
  fun calls text args => (ExecuteTemplate text args, calls + 1)

/-- A renderer whose output depends on its state: it prints the number of calls made so far. -/
def callNumberRenderer : StatefulRenderer Nat :=
  fun calls _ _ => (.ok (toString calls), calls + 1)


/-- Modelled from the spec: the capability `ErrorResolver` of `resolver.go` (not among the
sources): `resolve(error) -> (ResolvedResult, matched)`. -/
abbrev ErrorResolver := error → Except Panic (ResolvedResult × Bool)

/-- Modelled from the spec: `AddErrorResolver` of `resolver.go` (not among the sources), the
registration: it appends the resolver to the ordered list, without deduplication. -/
def AddErrorResolver (errorResolvers : List ErrorResolver) (er : ErrorResolver) :
    List ErrorResolver :=
  errorResolvers ++ [er]

/-- Modelled from the spec: the `Resolve` of the registry in `resolver.go` (not among the
sources): it iterates the registered resolvers in order, invokes each one and returns the first
`(result, true)`; when the sequence is exhausted it returns `(empty-result, false)`. -/
def ResolveError : List ErrorResolver → error → Except Panic (ResolvedResult × Bool)
  | [], _ => .ok ({}, false)
  | er :: ers, err =>
    match er err with
    | .ok (result, found) => if found then .ok (result, true) else ResolveError ers err
    | .error p => .error p

/-- The function `init` of `live.go`: `AddErrorResolver(&liveErrorResolver{})`, on the list of
the resolvers registered before it. -/
def init (errorResolvers : List ErrorResolver) : List ErrorResolver :=
  AddErrorResolver errorResolvers (liveErrorResolver.Resolve {})

/-! ## The vocabulary of the claims -/

/-- The order in which `Resolve` tries the families. -/
def Family.order : List Family :=
  [.NoInventoryObjError, .MultipleInventoryObjError, .TimeoutError,
   .ResourceGroupCRDInstallError, .NoResourceGroupCRDError, .InvExistsError]

/-- The family earliest in the order among those with a cause in the wrap chain. -/
def error.earliest (err : error) : Option Family :=
  Family.order.find? fun f => err.wraps f

/-- The number of recognized causes in the wrap chain. -/
def error.recognized (err : error) : Nat :=
  (err.chain.filter fun e => e.family.isSome).length

/-- The template of each family. -/
def Family.template : Family → String
  | .NoInventoryObjError => noInventoryObjErrorMsg
  | .MultipleInventoryObjError => multipleInventoryObjErrorMsg
  | .TimeoutError => timeoutErrorMsg
  | .ResourceGroupCRDInstallError => resourceGroupCRDInstallErrorMsg
  | .NoResourceGroupCRDError => noResourceGroupCRDMsg
  | .InvExistsError => invInfoAlreadyExistsMsg

/-- The exit code of each family: 3 for the timeout family, unset for the others. -/
def Family.exitCode : Family → Int
  | .TimeoutError => TimeoutErrorExitCode
  | _ => 0

/-- The result made of a rendered message and the exit code of a family, with `matched` true;
a renderer that panics gives the panic. -/
def matchedWith (f : Family) (rendered : Except Panic String) :
    Except Panic (ResolvedResult × Bool) :=
  match rendered with
  | .ok message => .ok ({ Message := message, ExitCode := f.exitCode }, true)
  | .error p => .error p

/-- A renderer stub that tells whether the bag it is given holds the error value `cause` under
some key. -/
def causeProbe (cause : error) (_ : String) (args : Bag) : Except Panic String :=
  .ok (if args.any fun kv => decide (kv.2 = .iface cause) then "cause in bag" else "cause not in bag")

/-- The text `part` occurs in `s`. -/
def Contains (s part : String) : Prop :=
  ∃ before after : String, s = before ++ part ++ after

/-- What the body of `range` in the timeout template prints: one line for each timed-out
resource, each after a line break. -/
def resourceLines : List TimedOutResource → String
  | [] => ""
  | r :: rs =>
    "\n" ++ (r.Identifier.GroupKind.Kind ++ "/" ++ r.Identifier.Name ++ " " ++ r.Status ++ " " ++
      r.Message) ++ resourceLines rs

/-- The message of the timeout template for a timeout error, written out. -/
def timeoutText (p : TimeoutError) : String :=
  "\nError: Timeout after " ++ template.fmtFloat0 (template.Seconds p.Timeout) ++
    " seconds waiting for " ++ template.fmtInt p.TimedOutResources.length ++ " out of " ++
    template.fmtInt p.Identifiers.length ++ " resources to reach condition " ++ p.Condition ++
    ":" ++ "\n" ++ resourceLines p.TimedOutResources ++ "\n"

/-- The message of the ResourceGroup-CRD-install template for the text `cause`, written out. -/
def installText (cause : String) : String :=
  if 0 < cause.utf8ByteSize then
    "\nError: Unable to install the ResourceGroup CRD." ++ "\n" ++ "\nDetails:" ++ "\n" ++ cause ++
      "\n"
  else "\nError: Unable to install the ResourceGroup CRD." ++ "\n"

/-! ## Sample errors -/

/-- An identifier of a Deployment. -/
def deployment (name : String) : ObjMetadata :=
  { Namespace := "default", Name := name, GroupKind := { Group := "apps", Kind := "Deployment" } }

/-- The timeout cause of the scenario of the specification: a timeout of 30 s, 2 of 5
identifiers timed out, condition "Current". -/
def scenarioTimeout : TimeoutError :=
  { Identifiers := [deployment "a", deployment "b", deployment "c", deployment "d", deployment "e"],
    Timeout := 30 * 1000000000,
    Condition := "Current",
    TimedOutResources :=
      [{ Identifier := deployment "a", Status := "InProgress", Message := "not ready" },
       { Identifier := deployment "b", Status := "Unknown", Message := "not found" }] }

/-- The scenario: the timeout cause as the error itself. -/
def scenarioError : error :=
  .TimeoutError scenarioTimeout "timeout"

/-- The timeout cause of the scenario wrapped in a `*errors.Error` of kpt, as `errors.E` does. -/
def wrappedScenario : error :=
  .other "*errors.Error" "apply: timeout" scenarioError

/-- A timeout cause wrapped by `fmt.Errorf` with the verb `%w`. -/
def wrappedTimeout : error :=
  .other "*fmt.wrapError" "apply failed: timeout"
    (.TimeoutError ⟨[], 1000000000, "Current", []⟩ "timeout")

/-- A timeout cause beneath two wrappers: a `*errors.Error` of kpt around an error made by
`fmt.Errorf` with the verb `%w`. -/
def deepTimeout : error :=
  .other "*errors.Error" "live apply: wait: timeout"
    (.other "*fmt.wrapError" "wait: timeout"
      (.TimeoutError ⟨[deployment "a"], 5 * 1000000000, "Current", []⟩ "timeout"))

/-- A ResourceGroup-CRD-install cause whose nested `Err` is a timeout cause: two recognized
causes, the timeout family being the earlier one in the order. -/
def installOverTimeout : error :=
  .ResourceGroupCRDInstallError "error installing ResourceGroup crd"
    (.TimeoutError ⟨[deployment "a"], 60 * 1000000000, "Current", []⟩ "timeout")

/-- A ResourceGroup-CRD-install cause whose nested `Err` is absent. -/
def installWithoutErr : error :=
  .ResourceGroupCRDInstallError "error installing ResourceGroup crd" .nil

/-- A ResourceGroup-CRD-install cause with a nested error. -/
def installError : error :=
  .ResourceGroupCRDInstallError "error installing ResourceGroup crd"
    (.other "*errors.errorString" "connection refused" .nil)

/-- A ResourceGroup-CRD-install cause that wraps, beneath another error, a no-inventory-object
cause: two recognized causes, the one earlier in the order lying deeper. -/
def installOverNoInventory : error :=
  .ResourceGroupCRDInstallError "error installing ResourceGroup crd"
    (.other "*fmt.wrapError" "apply: no inventory" (.NoInventoryObjError "no inventory object"))

/-- An error that wraps no recognized cause. -/
def unknownError : error :=
  .other "*fmt.wrapError" "read config: no such file" (.other "*errors.errorString" "no such file" .nil)

/-- A resolver that matches every error with a fixed message. -/
def constResolver (message : String) : ErrorResolver :=
  fun _ => .ok ({ Message := message }, true)

/-- A resolver that matches no error. -/
def noResolver : ErrorResolver :=
  fun _ => .ok ({}, false)

end resolver

/-! ## `errors.As` and the wrap chain -/

namespace resolver

open template (Bag Value)

set_option maxRecDepth 100000

theorem As_eq_find (err : error) (f : Family) :
    errors.As err f = err.chain.find? fun e => decide (e.family = some f) := by
  induction err <;> cases f <;> simp_all [errors.As, error.chain, error.family, List.find?]

theorem As_eq_none_iff (err : error) (f : Family) :
    errors.As err f = none ↔ err.wraps f = false := by
  rw [As_eq_find, error.wraps, List.find?_eq_none]
  simp

theorem As_eq_some_of_wraps (err : error) (f : Family) (h : err.wraps f = true) :
    ∃ c, errors.As err f = some c ∧ c ∈ err.chain ∧ c.family = some f := by
  cases hAs : errors.As err f with
  | none => rw [(As_eq_none_iff err f).1 hAs] at h; cases h
  | some c =>
    refine ⟨c, rfl, ?_, ?_⟩
    · rw [As_eq_find] at hAs
      exact List.mem_of_find?_eq_some hAs
    · rw [As_eq_find] at hAs
      simpa using List.find?_some hAs

theorem wraps_iff (err : error) (f : Family) :
    err.wraps f = true ↔ ∃ e ∈ err.chain, e.family = some f := by
  simp [error.wraps]

/-- The outcome of `ResolveWith` on an error none of whose causes is recognized. -/
theorem ResolveWith_of_earliest_none (r : liveErrorResolver)
    (render : String → Bag → Except Panic String) (err : error) (h : err.earliest = none) :
    r.ResolveWith render err = .ok ({ Message := "", ExitCode := 0 }, false) := by
  simp only [error.earliest, Family.order, List.find?_eq_none, List.mem_cons, List.mem_singleton,
    forall_eq_or_imp, forall_eq, Bool.not_eq_true, List.not_mem_nil, false_implies,
    forall_const] at h
  obtain ⟨h1, h2, h3, h4, h5, h6, -⟩ := h
  simp only [liveErrorResolver.ResolveWith, (As_eq_none_iff _ _).2 h1, (As_eq_none_iff _ _).2 h2,
    (As_eq_none_iff _ _).2 h3, (As_eq_none_iff _ _).2 h4, (As_eq_none_iff _ _).2 h5,
    (As_eq_none_iff _ _).2 h6]

/-- The outcome of `ResolveWith` when the earliest family in the chain is not the
ResourceGroup-CRD-install one: the template of the family rendered on the bag that binds
`err` to the error given to `Resolve`. -/
theorem ResolveWith_of_earliest (r : liveErrorResolver)
    (render : String → Bag → Except Panic String) (err : error) (f : Family)
    (h : err.earliest = some f) (hf : f ≠ .ResourceGroupCRDInstallError) :
    r.ResolveWith render err = matchedWith f (render f.template [("err", .iface err)]) := by
  simp only [error.earliest, Family.order, List.find?] at h
  cases h1 : err.wraps .NoInventoryObjError <;> rw [h1] at h
  case true =>
    obtain ⟨c, hc, -⟩ := As_eq_some_of_wraps _ _ h1
    cases h
    simp only [liveErrorResolver.ResolveWith, hc, matchedWith, Family.template, Family.exitCode]
  cases h2 : err.wraps .MultipleInventoryObjError <;> rw [h2] at h
  case true =>
    obtain ⟨c, hc, -⟩ := As_eq_some_of_wraps _ _ h2
    cases h
    simp only [liveErrorResolver.ResolveWith, hc, (As_eq_none_iff _ _).2 h1, matchedWith,
      Family.template, Family.exitCode]
  cases h3 : err.wraps .TimeoutError <;> rw [h3] at h
  case true =>
    obtain ⟨c, hc, -⟩ := As_eq_some_of_wraps _ _ h3
    cases h
    simp only [liveErrorResolver.ResolveWith, hc, (As_eq_none_iff _ _).2 h1,
      (As_eq_none_iff _ _).2 h2, matchedWith, Family.template, Family.exitCode]
  cases h4 : err.wraps .ResourceGroupCRDInstallError <;> rw [h4] at h
  case true => cases h; exact absurd rfl hf
  cases h5 : err.wraps .NoResourceGroupCRDError <;> rw [h5] at h
  case true =>
    obtain ⟨c, hc, -⟩ := As_eq_some_of_wraps _ _ h5
    cases h
    simp only [liveErrorResolver.ResolveWith, hc, (As_eq_none_iff _ _).2 h1,
      (As_eq_none_iff _ _).2 h2, (As_eq_none_iff _ _).2 h3, (As_eq_none_iff _ _).2 h4,
      matchedWith, Family.template, Family.exitCode]
  cases h6 : err.wraps .InvExistsError <;> rw [h6] at h
  case true =>
    obtain ⟨c, hc, -⟩ := As_eq_some_of_wraps _ _ h6
    cases h
    simp only [liveErrorResolver.ResolveWith, hc, (As_eq_none_iff _ _).2 h1,
      (As_eq_none_iff _ _).2 h2, (As_eq_none_iff _ _).2 h3, (As_eq_none_iff _ _).2 h4,
      (As_eq_none_iff _ _).2 h5, matchedWith, Family.template, Family.exitCode]
  cases h

/-- The outcome of `ResolveWith` when the earliest family in the chain is the
ResourceGroup-CRD-install one: `Error()` is called on the field `Err` of the extracted cause,
and the template is rendered on the bag that binds `cause` to that text. -/
theorem ResolveWith_of_earliest_install (r : liveErrorResolver)
    (render : String → Bag → Except Panic String) (err c : error)
    (h : err.earliest = some .ResourceGroupCRDInstallError)
    (hc : errors.As err .ResourceGroupCRDInstallError = some c) :
    r.ResolveWith render err =
      match c.Err.Error with
      | .ok cause =>
        matchedWith .ResourceGroupCRDInstallError
          (render resourceGroupCRDInstallErrorMsg [("cause", .str cause)])
      | .error p => .error p := by
  simp only [error.earliest, Family.order, List.find?] at h
  cases h1 : err.wraps .NoInventoryObjError <;> rw [h1] at h
  case true => cases h
  cases h2 : err.wraps .MultipleInventoryObjError <;> rw [h2] at h
  case true => cases h
  cases h3 : err.wraps .TimeoutError <;> rw [h3] at h
  case true => cases h
  simp only [liveErrorResolver.ResolveWith, hc, (As_eq_none_iff _ _).2 h1,
    (As_eq_none_iff _ _).2 h2, (As_eq_none_iff _ _).2 h3, matchedWith, Family.exitCode]


/-! ## The six templates, parsed -/

theorem Parse_noInventoryObjErrorMsg :
    template.Parse noInventoryObjErrorMsg = some [.text noInventoryObjErrorMsg] := by
  rfl

theorem Parse_multipleInventoryObjErrorMsg :
    template.Parse multipleInventoryObjErrorMsg = some [.text multipleInventoryObjErrorMsg] := by
  rfl

theorem Parse_noResourceGroupCRDMsg :
    template.Parse noResourceGroupCRDMsg = some [.text noResourceGroupCRDMsg] := by
  rfl

theorem Parse_invInfoAlreadyExistsMsg :
    template.Parse invInfoAlreadyExistsMsg = some [.text invInfoAlreadyExistsMsg] := by
  rfl

theorem Parse_timeoutErrorMsg :
    template.Parse timeoutErrorMsg = some
      [.text "\nError: Timeout after ",
       .action (.call "printf" [.str "%.0f", .field ["err", "Timeout", "Seconds"]]),
       .text " seconds waiting for ",
       .action (.call "printf" [.str "%d", .call "len" [.field ["err", "TimedOutResources"]]]),
       .text " out of ",
       .action (.call "printf" [.str "%d", .call "len" [.field ["err", "Identifiers"]]]),
       .text " resources to reach condition ",
       .action (.field ["err", "Condition"]),
       .text ":",
       .action (.call "printf" [.str "\n"]),
       .range (.field ["err", "TimedOutResources"])
         [.text "\n",
          .action (.call "printf" [.str "%s/%s %s %s", .field ["Identifier", "GroupKind", "Kind"],
            .field ["Identifier", "Name"], .field ["Status"], .field ["Message"]])],
       .text "\n"] := by
  rfl

theorem Parse_resourceGroupCRDInstallErrorMsg :
    template.Parse resourceGroupCRDInstallErrorMsg = some
      [.text "\nError: Unable to install the ResourceGroup CRD.",
       .cond (.call "gt" [.call "len" [.field ["cause"]], .num 0])
         [.text "\n",
          .action (.call "printf" [.str "\nDetails:"]),
          .text "\n",
          .action (.call "printf" [.str "%s", .field ["cause"]])],
       .text "\n"] := by
  rfl

/-- A template without actions renders to its own text, whatever the bag. -/
theorem exec_text (dot : template.Dot) (s : String) :
    template.exec dot [.text s] = .ok s := by
  simp [template.exec, template.exec.execNode, Except.map]

theorem ExecuteTemplate_noInventoryObjErrorMsg (args : Bag) :
    ExecuteTemplate noInventoryObjErrorMsg args = .ok noInventoryObjErrorMsg := by
  simp only [ExecuteTemplate, Parse_noInventoryObjErrorMsg, exec_text]

theorem ExecuteTemplate_multipleInventoryObjErrorMsg (args : Bag) :
    ExecuteTemplate multipleInventoryObjErrorMsg args = .ok multipleInventoryObjErrorMsg := by
  simp only [ExecuteTemplate, Parse_multipleInventoryObjErrorMsg, exec_text]

theorem ExecuteTemplate_noResourceGroupCRDMsg (args : Bag) :
    ExecuteTemplate noResourceGroupCRDMsg args = .ok noResourceGroupCRDMsg := by
  simp only [ExecuteTemplate, Parse_noResourceGroupCRDMsg, exec_text]

theorem ExecuteTemplate_invInfoAlreadyExistsMsg (args : Bag) :
    ExecuteTemplate invInfoAlreadyExistsMsg args = .ok invInfoAlreadyExistsMsg := by
  simp only [ExecuteTemplate, Parse_invInfoAlreadyExistsMsg, exec_text]

/-- The line that the body of `range` prints for one timed-out resource. -/
theorem exec_resource_line (r : TimedOutResource) :
    template.exec (.elem (.resource r))
      [.text "\n",
       .action (.call "printf" [.str "%s/%s %s %s", .field ["Identifier", "GroupKind", "Kind"],
         .field ["Identifier", "Name"], .field ["Status"], .field ["Message"]])] =
      .ok ("\n" ++ (r.Identifier.GroupKind.Kind ++ "/" ++ r.Identifier.Name ++ " " ++ r.Status ++
        " " ++ r.Message)) := by
  simp [template.exec, template.exec.execNode, template.eval, template.eval.evalArgs,
    template.evalChain, template.selectAll, template.Dot.field, Value.field,
    template.callFunction, template.Sprintf, Except.map, Value.print]
  simp [String.ext_iff, String.data_append]


/-- The lines that `range` prints for the timed-out resources. -/
theorem forEach_resources (rs : List TimedOutResource) :
    template.forEach (fun x => template.exec (.elem x)
      [.text "\n",
       .action (.call "printf" [.str "%s/%s %s %s", .field ["Identifier", "GroupKind", "Kind"],
         .field ["Identifier", "Name"], .field ["Status"], .field ["Message"]])])
      (rs.map .resource) = .ok (resourceLines rs) := by
  induction rs with
  | nil => rfl
  | cons r rs ih =>
    simp only [List.map_cons, template.forEach, exec_resource_line, ih, Except.map, resourceLines]

/-- The `range` node of the timeout template on a bag that binds `err` to a timeout error. -/
theorem execNode_range_resources (p : TimeoutError) (msg : String) :
    template.exec.execNode (.root [("err", .iface (.TimeoutError p msg))])
      (.range (.field ["err", "TimedOutResources"])
        [.text "\n",
         .action (.call "printf" [.str "%s/%s %s %s", .field ["Identifier", "GroupKind", "Kind"],
           .field ["Identifier", "Name"], .field ["Status"], .field ["Message"]])]) =
      .ok (resourceLines p.TimedOutResources) := by
  simp [template.exec.execNode, template.eval, template.evalChain, template.Dot.field,
    List.lookup, template.selectAll, Value.field, Value.elems, forEach_resources]

/-- The timeout template rendered on a bag that binds `err` to a timeout error itself. -/
theorem ExecuteTemplate_timeoutErrorMsg (p : TimeoutError) (msg : String) :
    ExecuteTemplate timeoutErrorMsg [("err", .iface (.TimeoutError p msg))] =
      .ok (timeoutText p) := by
  simp only [ExecuteTemplate, Parse_timeoutErrorMsg, template.exec, execNode_range_resources]
  simp [template.exec.execNode, template.eval, template.eval.evalArgs,
    template.evalChain, template.selectAll, template.Dot.field, Value.field,
    template.callFunction, template.Sprintf, Except.map, Value.print, List.lookup]
  simp [timeoutText, String.ext_iff, String.data_append, List.append_assoc]


/-! ## Whole seconds -/

theorem roundHalfEven_intCast (n : ℤ) : template.roundHalfEven (n : ℚ) = n := by
  simp [template.roundHalfEven]

/-- An integer below 2^53 in magnitude is a float64: the conversion is exact. -/
theorem float64_intCast (n : ℤ) (h : |n| < 2 ^ 53) : template.float64 (n : ℚ) = n := by
  unfold template.float64
  split
  · next h0 => exact h0.symm
  · next h0 =>
    have hpos : 0 < |(n : ℚ)| := abs_pos.2 h0
    have hlt : |(n : ℚ)| < ((2 : ℕ) : ℚ) ^ (53 : ℤ) := by
      have : |(n : ℚ)| = ((|n| : ℤ) : ℚ) := by simp
      rw [this]
      exact_mod_cast h
    have he : Int.log 2 |(n : ℚ)| < 53 := (Int.lt_zpow_iff_log_lt (by norm_num) hpos).1 hlt
    obtain ⟨k, hk⟩ : ∃ k : ℕ, Int.log 2 |(n : ℚ)| - 52 = -(k : ℤ) :=
      ⟨(52 - Int.log 2 |(n : ℚ)|).toNat, by omega⟩
    rw [hk, zpow_neg, zpow_natCast, div_inv_eq_mul]
    have hcast : (n : ℚ) * 2 ^ k = ((n * 2 ^ k : ℤ) : ℚ) := by push_cast; rfl
    rw [hcast, roundHalfEven_intCast]
    push_cast
    field_simp

/-- A duration of `t` whole seconds has exactly `t` as its `Seconds`. -/
theorem Seconds_whole (t : ℤ) (h : |t| < 2 ^ 53) :
    template.Seconds (t * 1000000000) = t := by
  have h0 : template.float64 0 = 0 := by simp [template.float64]
  have hz : template.float64 ((0 : ℤ) : ℚ) = 0 := by simpa using h0
  simp only [template.Seconds, Int.mul_tmod_left, Int.mul_tdiv_cancel t (by decide : (1000000000 : ℤ) ≠ 0)]
  rw [hz, zero_div, h0, float64_intCast t h, add_zero, float64_intCast t h]

theorem fmtFloat0_intCast (t : ℤ) : template.fmtFloat0 (t : ℚ) = template.fmtInt t := by
  have habs : |(t : ℚ)| = ((|t| : ℤ) : ℚ) := by simp
  simp only [template.fmtFloat0, template.fmtInt, habs, roundHalfEven_intCast, Int.natAbs_abs,
    Int.cast_lt_zero]

/-- The verb `%.0f` prints the `Seconds` of a duration of `t` whole seconds as the integer `t`. -/
theorem fmtFloat0_Seconds_whole (t : ℤ) (h : |t| < 2 ^ 53) :
    template.fmtFloat0 (template.Seconds (t * 1000000000)) = template.fmtInt t := by
  rw [Seconds_whole t h, fmtFloat0_intCast]

/-! ## The install template -/

theorem ExecuteTemplate_resourceGroupCRDInstallErrorMsg (cause : String) :
    ExecuteTemplate resourceGroupCRDInstallErrorMsg [("cause", .str cause)] =
      .ok (installText cause) := by
  simp only [ExecuteTemplate, Parse_resourceGroupCRDInstallErrorMsg, template.exec]
  by_cases h : 0 < cause.utf8ByteSize
  · simp [template.exec.execNode, template.exec, template.eval, template.eval.evalArgs,
      template.evalChain, template.selectAll, template.Dot.field, Value.field,
      template.callFunction, template.Sprintf, Except.map, Value.print, List.lookup,
      Value.truth, installText, h]
    simp [String.ext_iff, String.data_append]
  · simp [template.exec.execNode, template.exec, template.eval, template.eval.evalArgs,
      template.evalChain, template.selectAll, template.Dot.field, Value.field,
      template.callFunction, template.Sprintf, Except.map, Value.print, List.lookup,
      Value.truth, installText, h]


/-! ## What `Resolve` returns, family by family -/

theorem earliest_eq_none_iff (err : error) :
    err.earliest = none ↔ ∀ f, err.wraps f = false := by
  simp only [error.earliest, Family.order, List.find?_eq_none, List.mem_cons, List.mem_singleton,
    forall_eq_or_imp, forall_eq, Bool.not_eq_true, List.not_mem_nil, false_implies,
    forall_const]
  constructor
  · rintro ⟨h1, h2, h3, h4, h5, h6, -⟩ f
    cases f <;> assumption
  · intro h
    exact ⟨h _, h _, h _, h _, h _, h _, fun _ => trivial⟩

theorem wraps_of_earliest (err : error) (f : Family) (h : err.earliest = some f) :
    err.wraps f = true := by
  simpa using List.find?_some h

/-- The timeout template can not be rendered when `err` is bound to anything but a timeout
error: the selector `.Timeout` fails. -/
theorem ExecuteTemplate_timeoutErrorMsg_fails (err : error)
    (h : err.family ≠ some .TimeoutError) :
    ∃ reason, ExecuteTemplate timeoutErrorMsg [("err", .iface err)] =
      .error (.templateFailure reason) := by
  simp only [ExecuteTemplate, Parse_timeoutErrorMsg, template.exec]
  cases err <;>
    simp [template.exec.execNode, template.eval, template.eval.evalArgs, template.evalChain,
      template.selectAll, template.Dot.field, Value.field, Except.map, List.lookup,
      error.family] at h ⊢

/-- On the nil error `Resolve` returns the empty result, not matched. -/
theorem Resolve_nil (r : liveErrorResolver) :
    r.Resolve .nil = .ok ({ Message := "", ExitCode := 0 }, false) :=
  ResolveWith_of_earliest_none r ExecuteTemplate .nil rfl

/-- On a timeout error itself `Resolve` returns the rendered timeout message with exit code 3. -/
theorem Resolve_timeout (r : liveErrorResolver) (p : TimeoutError) (msg : String) :
    r.Resolve (.TimeoutError p msg) =
      .ok ({ Message := timeoutText p, ExitCode := 3 }, true) := by
  rw [liveErrorResolver.Resolve,
    ResolveWith_of_earliest r ExecuteTemplate (.TimeoutError p msg) .TimeoutError rfl (by decide)]
  simp only [Family.template, ExecuteTemplate_timeoutErrorMsg, matchedWith, Family.exitCode,
    TimeoutErrorExitCode]

/-- When the timeout family is the earliest in the chain and the error given to `Resolve` is not
the timeout error itself, `Resolve` raises: it hands the outer error to the template. -/
theorem Resolve_wrapped_timeout (r : liveErrorResolver) (err : error)
    (h : err.earliest = some .TimeoutError) (hw : err.family ≠ some .TimeoutError) :
    ∃ reason, r.Resolve err = .error (.templateFailure reason) := by
  obtain ⟨reason, hr⟩ := ExecuteTemplate_timeoutErrorMsg_fails err hw
  refine ⟨reason, ?_⟩
  rw [liveErrorResolver.Resolve,
    ResolveWith_of_earliest r ExecuteTemplate err .TimeoutError h (by decide)]
  simp only [Family.template, hr, matchedWith]

/-- The timeout message for a timeout of `t` whole seconds, `k` timed-out resources and `n`
identifiers. -/
theorem timeoutText_whole (p : TimeoutError) (t : ℤ) (ht : p.Timeout = t * 1000000000)
    (hr : |t| < 2 ^ 53) :
    timeoutText p =
      "\nError: Timeout after " ++ template.fmtInt t ++ " seconds waiting for " ++
        template.fmtInt p.TimedOutResources.length ++ " out of " ++
        template.fmtInt p.Identifiers.length ++ " resources to reach condition " ++
        p.Condition ++ ":" ++ "\n" ++ resourceLines p.TimedOutResources ++ "\n" := by
  rw [timeoutText, ht, fmtFloat0_Seconds_whole t hr]

/-- Every result that `ResolveWith` returns is either the empty result, not matched, on a chain
without recognized cause, or a matched result made of the exit code of the earliest family and
of what the renderer returned for the template of that family. -/
theorem ResolveWith_ok (r : liveErrorResolver) (render : String → Bag → Except Panic String)
    (err : error) (result : ResolvedResult) (matched : Bool)
    (h : r.ResolveWith render err = .ok (result, matched)) :
    (matched = false ∧ result = { Message := "", ExitCode := 0 } ∧ err.earliest = none) ∨
      (matched = true ∧ ∃ f, err.earliest = some f ∧ result.ExitCode = f.exitCode ∧
        ∃ args, render f.template args = .ok result.Message) := by
  cases he : err.earliest with
  | none =>
    rw [ResolveWith_of_earliest_none r render err he] at h
    cases h
    exact Or.inl ⟨rfl, rfl, rfl⟩
  | some f =>
    right
    by_cases hf : f = .ResourceGroupCRDInstallError
    · subst hf
      obtain ⟨c, hc, -⟩ := As_eq_some_of_wraps _ _ (wraps_of_earliest _ _ he)
      rw [ResolveWith_of_earliest_install r render err c he hc] at h
      cases hE : c.Err.Error with
      | error p => rw [hE] at h; cases h
      | ok cause =>
        rw [hE] at h
        simp only [matchedWith] at h
        cases hR : render resourceGroupCRDInstallErrorMsg [("cause", .str cause)] with
        | error p => rw [hR] at h; cases h
        | ok message =>
          rw [hR] at h
          cases h
          exact ⟨rfl, _, rfl, rfl, _, hR⟩
    · rw [ResolveWith_of_earliest r render err f he hf] at h
      cases hR : render f.template [("err", .iface err)] with
      | error p => rw [hR] at h; cases h
      | ok message =>
        rw [hR] at h
        simp only [matchedWith] at h
        cases h
        exact ⟨rfl, _, rfl, rfl, _, hR⟩


/-! ## The messages of the matched families -/

/-- On a timeout error itself whose timeout is `t` whole seconds, within the range of a
`time.Duration`, `Resolve` returns matched = true, exit code 3 and the message that reports
`t` seconds, the number of timed-out resources out of the number of identifiers, and the
condition. -/
theorem Resolve_timeout_whole (r : liveErrorResolver) (p : TimeoutError) (msg : String) (t : ℤ)
    (ht : p.Timeout = t * 1000000000)
    (hrange : -2 ^ 63 ≤ p.Timeout ∧ p.Timeout < 2 ^ 63) :
    r.Resolve (.TimeoutError p msg) =
      .ok ({ Message :=
              "\nError: Timeout after " ++ template.fmtInt t ++ " seconds waiting for " ++
                template.fmtInt p.TimedOutResources.length ++ " out of " ++
                template.fmtInt p.Identifiers.length ++ " resources to reach condition " ++
                p.Condition ++ ":" ++ "\n" ++ resourceLines p.TimedOutResources ++ "\n",
             ExitCode := 3 }, true) := by
  have hr : |t| < 2 ^ 53 := by
    rw [ht] at hrange
    rw [abs_lt]
    constructor <;> omega
  rw [Resolve_timeout, timeoutText_whole p t ht hr]

/-- The scenario of the specification, the timeout cause being the error itself: the message
reports "30 seconds" and "2 out of 5 resources", with exit code 3. -/
theorem Resolve_scenarioError :
    liveErrorResolver.Resolve {} scenarioError =
      .ok ({ Message :=
              "\nError: Timeout after 30 seconds waiting for 2 out of 5 resources to reach condition Current:\n\nDeployment/a InProgress not ready\nDeployment/b Unknown not found\n",
             ExitCode := 3 }, true) := by
  rw [scenarioError, Resolve_timeout_whole {} scenarioTimeout "timeout" 30 rfl (by decide)]
  rfl

/-- Two recognized causes, the earlier family lying deeper: the no-inventory message is the one
returned. -/
theorem Resolve_installOverNoInventory :
    liveErrorResolver.Resolve {} installOverNoInventory =
      .ok ({ Message := noInventoryObjErrorMsg, ExitCode := 0 }, true) := by
  rfl

/-- The output of a template that begins with literal text begins with that text. -/
theorem exec_text_cons (dot : template.Dot) (s out : String) (ns : List template.Node)
    (h : template.exec dot (.text s :: ns) = .ok out) : ∃ rest, out = s ++ rest := by
  simp only [template.exec, template.exec.execNode] at h
  cases hns : template.exec dot ns with
  | error e => rw [hns] at h; cases h
  | ok rest =>
    rw [hns] at h
    simp only [Except.map, Except.ok.injEq] at h
    exact ⟨rest, h.symm⟩

theorem append_ne_empty (s rest : String) (h : s ≠ "") : s ++ rest ≠ "" := by
  intro hs
  apply h
  have := congrArg String.data hs
  rw [String.data_append] at this
  exact String.ext (List.append_eq_nil.1 this).1

/-- Whatever the bag, a message that `ExecuteTemplate` returns for the template of a family is
not empty: each of the six templates begins with literal text. -/
theorem ExecuteTemplate_ne_empty (f : Family) (args : Bag) (message : String)
    (h : ExecuteTemplate f.template args = .ok message) : message ≠ "" := by
  cases f
  case NoInventoryObjError =>
    rw [Family.template, ExecuteTemplate_noInventoryObjErrorMsg] at h
    cases h
    decide
  case MultipleInventoryObjError =>
    rw [Family.template, ExecuteTemplate_multipleInventoryObjErrorMsg] at h
    cases h
    decide
  case NoResourceGroupCRDError =>
    rw [Family.template, ExecuteTemplate_noResourceGroupCRDMsg] at h
    cases h
    decide
  case InvExistsError =>
    rw [Family.template, ExecuteTemplate_invInfoAlreadyExistsMsg] at h
    cases h
    decide
  case TimeoutError =>
    simp only [Family.template, ExecuteTemplate, Parse_timeoutErrorMsg] at h
    split at h
    · next out hout =>
      cases h
      obtain ⟨rest, hrest⟩ := exec_text_cons _ _ _ _ hout
      rw [hrest]
      exact append_ne_empty _ _ (by decide)
    · cases h
  case ResourceGroupCRDInstallError =>
    simp only [Family.template, ExecuteTemplate, Parse_resourceGroupCRDInstallErrorMsg] at h
    split at h
    · next out hout =>
      cases h
      obtain ⟨rest, hrest⟩ := exec_text_cons _ _ _ _ hout
      rw [hrest]
      exact append_ne_empty _ _ (by decide)
    · cases h

/-- Every matched result that `Resolve` returns has a message that is not empty. -/
theorem Resolve_matched_message_ne_empty (r : liveErrorResolver) (err : error)
    (result : ResolvedResult) (h : r.Resolve err = .ok (result, true)) :
    result.Message ≠ "" := by
  rcases ResolveWith_ok r ExecuteTemplate err result true h with ⟨hm, -⟩ | ⟨-, f, -, -, args, hr⟩
  · cases hm
  · exact ExecuteTemplate_ne_empty f args _ hr


/-! ## The claims -/

/-- C1 (the code departs from the claim). The wrap chain of `wrappedTimeout` contains a timeout
cause, one of the six recognized causes, yet `Resolve` does not return matched = true with a
message: it raises, because it renders the timeout template on the outer error, on which
`.err.Timeout` can not be evaluated. -/
theorem C1_Resolve_raises_on_wrapped_timeout :
    wrappedTimeout.wraps .TimeoutError = true ∧
      liveErrorResolver.Resolve {} wrappedTimeout =
        .error (.templateFailure "can not evaluate field Timeout") := by
  constructor <;> rfl

/-- C2. When the wrap chain contains none of the six recognized causes, `Resolve` returns the
empty result (empty message, exit code unset) with matched = false; and whenever `Resolve`
returns matched = true, the wrap chain contains a cause of one of the six families. -/
theorem C2_unmatched_iff_no_recognized_cause (r : liveErrorResolver) (err : error) :
    ((∀ f, err.wraps f = false) →
        r.Resolve err = .ok ({ Message := "", ExitCode := 0 }, false)) ∧
      (∀ result, r.Resolve err = .ok (result, true) → ∃ f, err.wraps f = true) := by
  constructor
  · intro h
    exact ResolveWith_of_earliest_none r ExecuteTemplate err ((earliest_eq_none_iff err).2 h)
  · intro result hres
    by_contra hno
    have hall : ∀ f, err.wraps f = false := fun f => by
      cases hw : err.wraps f
      · rfl
      · exact absurd ⟨f, hw⟩ hno
    have := ResolveWith_of_earliest_none r ExecuteTemplate err ((earliest_eq_none_iff err).2 hall)
    rw [liveErrorResolver.Resolve, this] at hres
    cases hres

theorem C2_witness :
    ((∀ f, unknownError.wraps f = false) ∧
        liveErrorResolver.Resolve {} unknownError = .ok ({ Message := "", ExitCode := 0 }, false)) ∧
      (liveErrorResolver.Resolve {} (.InvExistsError "inventory exists") =
          .ok ({ Message := invInfoAlreadyExistsMsg, ExitCode := 0 }, true) ∧
        ∃ f, (error.InvExistsError "inventory exists").wraps f = true) :=
  have hno : ∀ f, unknownError.wraps f = false := fun f => by cases f <;> rfl
  have hres : liveErrorResolver.Resolve {} (.InvExistsError "inventory exists") =
      .ok ({ Message := invInfoAlreadyExistsMsg, ExitCode := 0 }, true) := by
    rw [liveErrorResolver.Resolve, ResolveWith_of_earliest {} ExecuteTemplate
      (.InvExistsError "inventory exists") .InvExistsError rfl (by decide)]
    simp only [Family.template, ExecuteTemplate_invInfoAlreadyExistsMsg, matchedWith,
      Family.exitCode]
  ⟨⟨hno, (C2_unmatched_iff_no_recognized_cause {} unknownError).1 hno⟩,
    hres, (C2_unmatched_iff_no_recognized_cause {} _).2 _ hres⟩


/-- The exit code `TimeoutErrorExitCode` is 3. When the timeout family is the one matched (the
earliest family in the chain), the result carries exit code 3 as soon as the renderer returns a
message; and every result that `ResolveWith` returns carries exit code 3 exactly when the
timeout family is the one matched, and exit code 0, that is unset, in every other outcome,
matched or not. It says nothing of the calls in which the renderer raises. -/
theorem exit_code_three_iff_timeout (r : liveErrorResolver)
    (render : String → Bag → Except Panic String) (err : error) :
    TimeoutErrorExitCode = 3 ∧
      (err.earliest = some .TimeoutError → ∀ message,
        render timeoutErrorMsg [("err", .iface err)] = .ok message →
          r.ResolveWith render err = .ok ({ Message := message, ExitCode := 3 }, true)) ∧
      (∀ result matched, r.ResolveWith render err = .ok (result, matched) →
        (result.ExitCode = 3 ↔ matched = true ∧ err.earliest = some .TimeoutError) ∧
          (err.earliest ≠ some .TimeoutError → result.ExitCode = 0)) := by
  refine ⟨rfl, ?_, ?_⟩
  · intro h message hm
    rw [ResolveWith_of_earliest r render err .TimeoutError h (by decide)]
    simp only [Family.template, hm, matchedWith, Family.exitCode, TimeoutErrorExitCode]
  · intro result matched hres
    cases he : err.earliest with
    | none =>
      rw [ResolveWith_of_earliest_none r render err he] at hres
      cases hres
      simp
    | some f =>
      by_cases hf : f = .ResourceGroupCRDInstallError
      · subst hf
        obtain ⟨c, hc, -⟩ := As_eq_some_of_wraps _ _ (wraps_of_earliest _ _ he)
        rw [ResolveWith_of_earliest_install r render err c he hc] at hres
        cases hE : c.Err.Error with
        | error p => rw [hE] at hres; cases hres
        | ok cause =>
          rw [hE] at hres
          simp only [matchedWith] at hres
          cases hR : render resourceGroupCRDInstallErrorMsg [("cause", .str cause)] with
          | error p => rw [hR] at hres; cases hres
          | ok message =>
            rw [hR] at hres
            cases hres
            simp [Family.exitCode]
      · rw [ResolveWith_of_earliest r render err f he hf] at hres
        cases hR : render f.template [("err", .iface err)] with
        | error p => rw [hR] at hres; cases hres
        | ok message =>
          rw [hR] at hres
          simp only [matchedWith] at hres
          cases hres
          cases f <;> simp [Family.exitCode, TimeoutErrorExitCode] at hf ⊢

/-- C3 (the code departs from the claim). In `deepTimeout` the timeout family is the one
matched: it is the earliest family with a cause in the chain, and `errors.As` extracts the
timeout cause. Yet the match yields no exit code 3: `Resolve` returns no result at all, it
raises, because the timeout template is rendered on the outer error. -/
theorem C3_timeout_match_yields_no_exit_code :
    deepTimeout.earliest = some .TimeoutError ∧
      (errors.As deepTimeout .TimeoutError).isSome = true ∧
      liveErrorResolver.Resolve {} deepTimeout =
        .error (.templateFailure "can not evaluate field Timeout") ∧
      ∀ result matched, liveErrorResolver.Resolve {} deepTimeout ≠ .ok (result, matched) := by
  have h : liveErrorResolver.Resolve {} deepTimeout =
      .error (.templateFailure "can not evaluate field Timeout") := by rfl
  refine ⟨rfl, rfl, h, fun result matched hok => ?_⟩
  rw [h] at hok
  cases hok


/-- No family with a cause in the chain comes before the earliest one in the order. -/
theorem earliest_le (err : error) (f g : Family) (h : err.earliest = some f)
    (hg : err.wraps g = true) : Family.order.indexOf f ≤ Family.order.indexOf g := by
  simp only [error.earliest, Family.order, List.find?] at h
  cases h1 : err.wraps .NoInventoryObjError <;> rw [h1] at h
  case true => cases h; cases g <;> decide
  cases h2 : err.wraps .MultipleInventoryObjError <;> rw [h2] at h
  case true => cases h; cases g <;> first | decide | simp_all
  cases h3 : err.wraps .TimeoutError <;> rw [h3] at h
  case true => cases h; cases g <;> first | decide | simp_all
  cases h4 : err.wraps .ResourceGroupCRDInstallError <;> rw [h4] at h
  case true => cases h; cases g <;> first | decide | simp_all
  cases h5 : err.wraps .NoResourceGroupCRDError <;> rw [h5] at h
  case true => cases h; cases g <;> first | decide | simp_all
  cases h6 : err.wraps .InvExistsError <;> rw [h6] at h
  case true => cases h; cases g <;> first | decide | simp_all
  cases h

/-- When the install cause that `errors.As` extracts has no nested `Err`, it is the only
recognized cause of the chain. -/
theorem recognized_of_install_without_Err (err c : error) (p : Panic)
    (hc : errors.As err .ResourceGroupCRDInstallError = some c) (hp : c.Err.Error = .error p) :
    err.recognized = 1 := by
  induction err with
  | ResourceGroupCRDInstallError msg inner _ =>
    simp only [errors.As, if_true, Option.some.injEq] at hc
    subst hc
    cases inner <;> simp [error.Err, error.Error] at hp
    rfl
  | other typ msg inner ih =>
    simp only [errors.As] at hc
    simpa [error.recognized, error.chain, error.family] using ih hc
  | _ => simp [errors.As] at hc

theorem wraps_of_recognized_pos (err : error) (h : 0 < err.recognized) :
    ∃ f, err.wraps f = true := by
  obtain ⟨e, he⟩ := List.exists_mem_of_length_pos h
  rw [List.mem_filter] at he
  obtain ⟨f, hf⟩ := Option.isSome_iff_exists.1 he.2
  exact ⟨f, (wraps_iff err f).2 ⟨e, he.1, hf⟩⟩

/-- The order of the families is the order of the branches of `Resolve`. When the wrap chain
contains two or more recognized causes, the branch taken is the one of the family `f` earliest
in that order among those in the chain, wherever in the chain its cause sits: the outcome is
what the renderer makes of the template of `f`, with the exit code of `f` when the renderer
returns. It says nothing of whether the renderer returns. -/
theorem earliest_family_wins (err : error) (h : 2 ≤ err.recognized) :
    Family.order = [.NoInventoryObjError, .MultipleInventoryObjError, .TimeoutError,
        .ResourceGroupCRDInstallError, .NoResourceGroupCRDError, .InvExistsError] ∧
      ∃ f, err.wraps f = true ∧
        (∀ g, err.wraps g = true → Family.order.indexOf f ≤ Family.order.indexOf g) ∧
        ∃ args : Bag, ∀ (r : liveErrorResolver) (render : String → Bag → Except Panic String),
          r.ResolveWith render err = matchedWith f (render f.template args) := by
  refine ⟨rfl, ?_⟩
  obtain ⟨g, hg⟩ := wraps_of_recognized_pos err (by omega)
  cases he : err.earliest with
  | none => rw [(earliest_eq_none_iff err).1 he g] at hg; cases hg
  | some f =>
    refine ⟨f, wraps_of_earliest err f he, fun g hg => earliest_le err f g he hg, ?_⟩
    by_cases hf : f = .ResourceGroupCRDInstallError
    · subst hf
      obtain ⟨c, hc, -⟩ := As_eq_some_of_wraps _ _ (wraps_of_earliest _ _ he)
      cases hE : c.Err.Error with
      | error p =>
        have := recognized_of_install_without_Err err c p hc hE
        omega
      | ok cause =>
        refine ⟨[("cause", .str cause)], fun r render => ?_⟩
        rw [ResolveWith_of_earliest_install r render err c he hc, hE]
        rfl
    · exact ⟨[("err", .iface err)], fun r render => ResolveWith_of_earliest r render err f he hf⟩

/-- C4 (the code departs from the claim). The wrap chain of `installOverTimeout` contains two
recognized causes, a ResourceGroup-CRD-install cause and beneath it a timeout cause, and the
timeout family is the earlier one in the order. The result for the timeout cause is not
returned: `Resolve` takes the timeout branch and raises, because it renders the timeout template
on the outer install error. -/
theorem C4_earliest_cause_result_not_returned :
    installOverTimeout.recognized = 2 ∧
      installOverTimeout.earliest = some .TimeoutError ∧
      Family.order.indexOf Family.TimeoutError <
        Family.order.indexOf Family.ResourceGroupCRDInstallError ∧
      liveErrorResolver.Resolve {} installOverTimeout =
        .error (.templateFailure
          "can not evaluate field Timeout in type *cmdutil.ResourceGroupCRDInstallError") ∧
      ∀ result matched,
        liveErrorResolver.Resolve {} installOverTimeout ≠ .ok (result, matched) := by
  have h : liveErrorResolver.Resolve {} installOverTimeout =
      .error (.templateFailure
        "can not evaluate field Timeout in type *cmdutil.ResourceGroupCRDInstallError") := by
    rfl
  refine ⟨rfl, rfl, by decide, h, fun result matched hok => ?_⟩
  rw [h] at hok
  cases hok


/-- The registry skips the resolvers that decline and returns what the first matching one
returns. -/
theorem ResolveError_first_match (before after : List ErrorResolver) (er : ErrorResolver)
    (err : error) (result : ResolvedResult)
    (hbefore : ∀ e ∈ before, ∃ declined, e err = .ok (declined, false))
    (hmatch : er err = .ok (result, true)) :
    ResolveError (before ++ er :: after) err = .ok (result, true) := by
  induction before with
  | nil => simp [ResolveError, hmatch]
  | cons e es ih =>
    obtain ⟨declined, hd⟩ := hbefore e (List.mem_cons_self _ _)
    have := ih fun x hx => hbefore x (List.mem_cons_of_mem _ hx)
    simp [ResolveError, hd, this]

/-- The registry returns the empty result, not matched, when every resolver declines. -/
theorem ResolveError_no_match (ers : List ErrorResolver) (err : error)
    (hall : ∀ e ∈ ers, ∃ declined, e err = .ok (declined, false)) :
    ResolveError ers err = .ok ({ Message := "", ExitCode := 0 }, false) := by
  induction ers with
  | nil => rfl
  | cons e es ih =>
    obtain ⟨declined, hd⟩ := hall e (List.mem_cons_self _ _)
    have := ih fun x hx => hall x (List.mem_cons_of_mem _ hx)
    simp [ResolveError, hd, this]

/-- C5. The registry tries the registered resolvers in registration order and returns the first
`(result, true)`: when the resolvers registered before `er` decline the error and `er` matches
it, the result of `er` is returned whatever the resolvers registered after `er` would say; when
every resolver declines, the registry returns the empty result with matched = false. The
function `init` registers the live resolver by one `AddErrorResolver` call, which appends it
after the resolvers registered before. -/
theorem C5_registry_first_match_wins (before after : List ErrorResolver) (er : ErrorResolver)
    (err : error) (result : ResolvedResult) :
    ((∀ e ∈ before, ∃ declined, e err = .ok (declined, false)) →
        er err = .ok (result, true) →
        ResolveError (before ++ er :: after) err = .ok (result, true)) ∧
      ((∀ e ∈ before, ∃ declined, e err = .ok (declined, false)) →
        ResolveError before err = .ok ({ Message := "", ExitCode := 0 }, false)) ∧
      init before = before ++ [liveErrorResolver.Resolve {}] ∧
      ResolveError (init []) err = liveErrorResolver.Resolve {} err := by
  refine ⟨ResolveError_first_match before after er err result,
    ResolveError_no_match before err, rfl, ?_⟩
  simp only [init, AddErrorResolver, List.nil_append, ResolveError]
  cases hres : liveErrorResolver.Resolve {} err with
  | error p => rfl
  | ok pair =>
    obtain ⟨res, matched⟩ := pair
    rcases ResolveWith_ok {} ExecuteTemplate err res matched hres with ⟨hm, hr, -⟩ | ⟨hm, -⟩
    · subst hm hr
      rfl
    · subst hm
      rfl


theorem C5_witness :
    ((∀ e ∈ [noResolver], ∃ declined, e unknownError = .ok (declined, false)) ∧
        constResolver "first" unknownError = .ok ({ Message := "first" }, true) ∧
        ResolveError ([noResolver] ++ constResolver "first" :: [constResolver "second"])
          unknownError = .ok ({ Message := "first" }, true)) ∧
      ResolveError [noResolver] unknownError = .ok ({ Message := "", ExitCode := 0 }, false) :=
  have hd : ∀ e ∈ [noResolver], ∃ declined, e unknownError = .ok (declined, false) :=
    fun e he => by
      rw [List.mem_singleton] at he
      subst he
      exact ⟨_, rfl⟩
  ⟨⟨hd, rfl,
    (C5_registry_first_match_wins [noResolver] [constResolver "second"] (constResolver "first")
      unknownError { Message := "first" }).1 hd rfl⟩,
    (C5_registry_first_match_wins [noResolver] [constResolver "second"] (constResolver "first")
      unknownError { Message := "first" }).2.1 hd⟩

/-- C6 (the code departs from the claim). On a ResourceGroup-CRD-install cause whose nested
`Err` is absent, `Resolve` does not return a result: it calls `Error()` on the nil `Err` and
raises. -/
theorem C6_Resolve_raises_on_install_without_Err :
    liveErrorResolver.Resolve {} installWithoutErr = .error .nilDereference := by
  rfl

/-- C7 (the claim as stated fails). `installError` is a ResourceGroup-CRD-install cause and is
itself the cause that `errors.As` extracts, yet no bag that holds this cause is the one that
`Resolve` passes to the renderer with the install template. -/
theorem C7_install_bag_lacks_cause :
    errors.As installError .ResourceGroupCRDInstallError = some installError ∧
      ¬ ∃ args : Bag, (∃ key, (key, Value.iface installError) ∈ args) ∧
        ∀ render : String → Bag → Except Panic String,
          liveErrorResolver.ResolveWith {} render installError =
            matchedWith .ResourceGroupCRDInstallError
              (render resourceGroupCRDInstallErrorMsg args) := by
  refine ⟨rfl, ?_⟩
  rintro ⟨args, ⟨key, hkey⟩, h⟩
  have hprobe := h (causeProbe installError)
  have hany : (args.any fun kv => decide (kv.2 = Value.iface installError)) = true :=
    List.any_eq_true.2 ⟨(key, Value.iface installError), hkey, by simp⟩
  have hleft : liveErrorResolver.ResolveWith {} (causeProbe installError) installError =
      .ok ({ Message := "cause not in bag", ExitCode := 0 }, true) := by
    rfl
  rw [hleft] at hprobe
  simp [causeProbe, hany, matchedWith, Family.exitCode] at hprobe

/-- C7 (amended). When the error given to `Resolve` is itself a recognized cause of a family
other than ResourceGroup-CRD-install, the bag passed to the renderer binds `err` to that matched
cause. When the ResourceGroup-CRD-install family is the one matched, at any depth, the bag binds
`cause` to the text of the nested `Err` of the extracted cause and holds nothing else: a string
derived from the matched cause, not the cause. Stated for every renderer: the outcome of
`Resolve` is what the renderer makes of the template of the family and of that bag. -/
theorem C7_bag_passed_to_renderer (r : liveErrorResolver)
    (render : String → Bag → Except Panic String) (err : error) :
    (∀ f, err.family = some f → f ≠ .ResourceGroupCRDInstallError →
        errors.As err f = some err ∧
          r.ResolveWith render err = matchedWith f (render f.template [("err", .iface err)])) ∧
      (∀ c cause, err.earliest = some .ResourceGroupCRDInstallError →
        errors.As err .ResourceGroupCRDInstallError = some c → c.Err.Error = .ok cause →
          r.ResolveWith render err =
            matchedWith .ResourceGroupCRDInstallError
              (render resourceGroupCRDInstallErrorMsg [("cause", .str cause)])) := by
  constructor
  · intro f hf hne
    have he : err.earliest = some f := by
      cases err <;> simp [error.family] at hf <;> subst hf <;> first | rfl | exact absurd rfl hne
    refine ⟨?_, ResolveWith_of_earliest r render err f he hne⟩
    cases err <;> simp [error.family] at hf <;> subst hf <;> simp [errors.As]
  · intro c cause he hc hE
    rw [ResolveWith_of_earliest_install r render err c he hc, hE]

theorem C7_witness :
    ((error.NoResourceGroupCRDError "crd not found").family = some .NoResourceGroupCRDError ∧
        Family.NoResourceGroupCRDError ≠ .ResourceGroupCRDInstallError ∧
        errors.As (.NoResourceGroupCRDError "crd not found") .NoResourceGroupCRDError =
          some (.NoResourceGroupCRDError "crd not found") ∧
        liveErrorResolver.ResolveWith {} ExecuteTemplate (.NoResourceGroupCRDError "crd not found") =
          matchedWith .NoResourceGroupCRDError
            (ExecuteTemplate noResourceGroupCRDMsg
              [("err", .iface (.NoResourceGroupCRDError "crd not found"))])) ∧
      (installError.earliest = some .ResourceGroupCRDInstallError ∧
        errors.As installError .ResourceGroupCRDInstallError = some installError ∧
        installError.Err.Error = .ok "connection refused" ∧
        liveErrorResolver.ResolveWith {} ExecuteTemplate installError =
          matchedWith .ResourceGroupCRDInstallError
            (ExecuteTemplate resourceGroupCRDInstallErrorMsg
              [("cause", .str "connection refused")])) :=
  ⟨⟨rfl, by decide,
      (C7_bag_passed_to_renderer {} ExecuteTemplate (.NoResourceGroupCRDError "crd not found")).1
        .NoResourceGroupCRDError rfl (by decide)⟩,
    rfl, rfl, rfl,
    (C7_bag_passed_to_renderer {} ExecuteTemplate installError).2 installError
      "connection refused" rfl rfl rfl⟩

/-- C8 (the code departs from the claim). `wrappedScenario` wraps the timeout cause of the
scenario (30 s, 2 of 5 identifiers, condition "Current"), yet `Resolve` returns no message and
no exit code: it raises, because the timeout template is rendered on the wrapping error. -/
theorem C8_Resolve_raises_on_wrapped_scenario :
    errors.As wrappedScenario .TimeoutError = some scenarioError ∧
      liveErrorResolver.Resolve {} wrappedScenario =
        .error (.templateFailure "can not evaluate field Timeout") := by
  constructor <;> rfl

/-- C9. For every error whose wrap chain contains a no-inventory-object cause, `Resolve` returns
matched = true with a message that contains "Package uninitialized" and with the exit code
unset. -/
theorem C9_no_inventory_message (r : liveErrorResolver) (err : error)
    (h : err.wraps .NoInventoryObjError = true) :
    ∃ message, r.Resolve err = .ok ({ Message := message, ExitCode := 0 }, true) ∧
      Contains message "Package uninitialized" := by
  have he : err.earliest = some .NoInventoryObjError := by
    simp [error.earliest, Family.order, List.find?, h]
  refine ⟨noInventoryObjErrorMsg, ?_, "\nError: ",
    ". Please run \"kpt live init\" command.\n\nThe package needs to be initialized to generate the template\nwhich will store state for resource sets. This state is\nnecessary to perform functionality such as deleting an entire\npackage or automatically deleting omitted resources (pruning).\n",
    by decide⟩
  rw [liveErrorResolver.Resolve,
    ResolveWith_of_earliest r ExecuteTemplate err .NoInventoryObjError he (by decide)]
  simp only [Family.template, ExecuteTemplate_noInventoryObjErrorMsg, matchedWith,
    Family.exitCode]

theorem C9_witness :
    installOverNoInventory.wraps .NoInventoryObjError = true ∧
      ∃ message,
        liveErrorResolver.Resolve {} installOverNoInventory =
          .ok ({ Message := message, ExitCode := 0 }, true) ∧
        Contains message "Package uninitialized" :=
  ⟨rfl, C9_no_inventory_message {} installOverNoInventory rfl⟩

/-- The result of a call made in a given state of the renderer is the result of `ResolveWith`
on the renderer as it answers in that state. -/
theorem ResolveIn_result {σ : Type} (r : liveErrorResolver) (render : StatefulRenderer σ)
    (state : σ) (err : error) :
    (r.ResolveIn render state err).1 =
      r.ResolveWith (fun text args => (render state text args).1) err := by
  simp only [liveErrorResolver.ResolveIn, liveErrorResolver.ResolveWith]
  repeat' split
  all_goals rfl

/-- The only state that a call leaves changed is the state of the renderer, and only through
the one call of the renderer that the matched branch makes. -/
theorem ResolveIn_state {σ : Type} (r : liveErrorResolver) (render : StatefulRenderer σ)
    (state : σ) (err : error) :
    (r.ResolveIn render state err).2 = state ∨
      ∃ text args, (r.ResolveIn render state err).2 = (render state text args).2 := by
  simp only [liveErrorResolver.ResolveIn]
  repeat' split
  all_goals first
    | exact Or.inl rfl
    | exact Or.inr ⟨_, _, rfl⟩

/-- C10. Given a deterministic template renderer, one whose output for a template and a bag does
not depend on the state it has reached, two calls of `Resolve` on the same error return identical
results, message, exit code and matched flag alike: whatever the states of the renderer in which
the two calls are made, whichever resolver values they are made on, and in particular when
the second call is made in the state that the first call has left. The resolver passes no state
of its own from one call to the next. -/
theorem C10_Resolve_twice_same_result {σ : Type} (first second : liveErrorResolver)
    (render : StatefulRenderer σ)
    (hdet : ∀ s s1 text args, (render s text args).1 = (render s1 text args).1)
    (err : error) :
    (∀ state state1, (first.ResolveIn render state err).1 =
        (second.ResolveIn render state1 err).1) ∧
      ∀ state, (second.ResolveIn render (first.ResolveIn render state err).2 err).1 =
        (first.ResolveIn render state err).1 := by
  have hall : ∀ state state1, (first.ResolveIn render state err).1 =
      (second.ResolveIn render state1 err).1 := by
    intro state state1
    rw [ResolveIn_result, ResolveIn_result]
    have hfun : (fun text args => (render state text args).1) =
        fun text args => (render state1 text args).1 := by
      funext text args
      exact hdet state state1 text args
    rw [hfun]
  exact ⟨hall, fun state => (hall _ _).symm⟩

theorem C10_witness :
    (∀ s s1 text args, (countingRenderer s text args).1 = (countingRenderer s1 text args).1) ∧
      (liveErrorResolver.ResolveIn {} countingRenderer 0 scenarioError).2 = 1 ∧
      (liveErrorResolver.ResolveIn {} countingRenderer 1 scenarioError).1 =
        (liveErrorResolver.ResolveIn {} countingRenderer 0 scenarioError).1 :=
  ⟨fun _ _ _ _ => rfl, rfl,
    ((C10_Resolve_twice_same_result {} {} countingRenderer (fun _ _ _ _ => rfl)
      scenarioError).1 1 0)⟩

/-- With a renderer whose output depends on its state the results of two successive calls
differ: the hypothesis of a deterministic renderer is needed, and the state of the renderer does
reach the result. -/
theorem ResolveIn_callNumberRenderer :
    (liveErrorResolver.ResolveIn {} callNumberRenderer 0 (.InvExistsError "inventory exists")).1 =
        .ok ({ Message := "0", ExitCode := 0 }, true) ∧
      (liveErrorResolver.ResolveIn {} callNumberRenderer
        (liveErrorResolver.ResolveIn {} callNumberRenderer 0
          (.InvExistsError "inventory exists")).2 (.InvExistsError "inventory exists")).1 =
        .ok ({ Message := "1", ExitCode := 0 }, true) := by
  constructor <;> rfl

end resolver
